import Mathlib

/-!
Shallow embedding of the voice-directory component of `edge_tts`
(`src/edge_tts/list_voices.py`): the `list_voices` fetch wrapper and the
`VoicesManager` class (`create` and `find`), together with the Python
`dict` operations they use.  Python dicts are modelled as ordered
association lists; Python exceptions as an error type returned through
`Except`; the single outbound HTTP exchange as an explicit `Transport`
value consumed by `list_voices`.
-/

namespace EdgeTTS

/-- Python attribute values as they occur in voice records and in `find`
queries: `None`, strings and integers.  Equality is Python `==` on these
values: exact, case-sensitive, and with no cross-type coercion (distinct
constructors never compare equal). -/
inductive Value where
  | none : Value
  | str : String → Value
  | int : Int → Value
deriving DecidableEq

/-- A Python `dict` with string keys (a voice record, or the keyword
arguments of `find`): an ordered association list.  Every dict built by
the source has unique keys; lookup returns the first binding. -/
abbrev Dict := List (String × Value)

/-- Lookup in a Python dict: the value bound to `k`, if `k` is present. -/
def dictGet? (d : Dict) (k : String) : Option Value :=
  (d.find? (fun p => p.1 == k)).map Prod.snd

/-- Python `d.get(k)` with its default: `None` when `k` is absent.  This is
the exact operation `VoicesManager.find` applies to each queried key. -/
def dictGet (d : Dict) (k : String) : Value :=
  (dictGet? d k).getD Value.none

/-- Python `{**d, k: v}`: a copy of `d` in which `k` is bound to `v` —
replaced in place when `k` was already present, appended otherwise. -/
def dictSet (d : Dict) (k : String) (v : Value) : Dict :=
  if d.any (fun p => p.1 == k) then
    d.map (fun p => if p.1 == k then (k, v) else p)
  else
    d ++ [(k, v)]

/-- Python exceptions raised by the embedded code: `RuntimeError` (the
spec's `FetchError` and `NotInitializedError`, distinguished by message),
`ValueError` (the spec's `DecodeError`), `KeyError` from `voice["Locale"]`,
and `AttributeError` from calling `.split` on a non-string value. -/
inductive PyError where
  | runtimeError : String → PyError
  | valueError : String → PyError
  | keyError : String → PyError
  | attributeError : String → PyError
deriving DecidableEq

/-- Body of the terminal HTTP response as seen by `response.json()`: either
it decodes as a JSON array of objects, or it is not valid JSON (in which
case `response.json()` raises `json.JSONDecodeError`). -/
inductive Body where
  | jsonList : List Dict → Body
  | notJson : Body
deriving DecidableEq

/-- Outcome of the guarded `session.get(VOICE_LIST, ...)` exchange: either
an `aiohttp.ClientError` raised during the request (connection refused, TLS
failure, aiohttp timeout, ...), or a terminal HTTP response with a status
code and a body. -/
inductive Transport where
  | clientError : String → Transport
  | response : Nat → Body → Transport
deriving DecidableEq

/-- Embedding of `list_voices` (src/edge_tts/list_voices.py lines 15-50).
`response.raise_for_status()` raises `aiohttp.ClientResponseError` — an
`aiohttp.ClientError` — exactly when the status code is `>= 400` (aiohttp's
documented contract; its message rendering is abbreviated here to the
status code).  The `except` clauses map every `aiohttp.ClientError` to
`RuntimeError` and `json.JSONDecodeError` to `ValueError`. -/
def list_voices (t : Transport) : Except PyError (List Dict) :=
  match t with
  | Transport.clientError cause =>
      Except.error (PyError.runtimeError ("Failed to fetch voice list: " ++ cause))
  | Transport.response status body =>
      if 400 ≤ status then
        Except.error (PyError.runtimeError
          ("Failed to fetch voice list: " ++ toString status))
      else
        match body with
        | Body.jsonList records => Except.ok records
        | Body.notJson =>
            Except.error (PyError.valueError
              "Failed to decode the voice list response as JSON.")

/-- Characters before the first `'-'` of a character list: the list-level
content of Python `s.split("-")[0]`. -/
def splitDashHead : List Char → List Char
  | [] => []
  | c :: cs => if c = '-' then [] else c :: splitDashHead cs

/-- Python `s.split("-")[0]`: the substring of `s` before the first `'-'`,
or all of `s` when `s` contains no `'-'`. -/
def splitHead (s : String) : String :=
  String.mk (splitDashHead s.data)

/-- The `VoicesManager` state: its `voices` list and its `is_initialized`
flag (src/edge_tts/list_voices.py lines 58-66).  `__init__` produces
`{ voices := vs, is_initialized := false }`. -/
structure VoicesManager where
  voices : List Dict
  is_initialized : Bool
deriving DecidableEq

/-- One element of the normalization comprehension in `VoicesManager.create`
(line 84): `{**voice, "Language": voice["Locale"].split("-")[0]}`.
`voice["Locale"]` raises `KeyError` when the key is absent, and `.split`
raises `AttributeError` when the stored value is not a string. -/
def normalizeVoice (voice : Dict) : Except PyError Dict :=
  match dictGet? voice "Locale" with
  | Option.none => Except.error (PyError.keyError "Locale")
  | Option.some (Value.str s) =>
      Except.ok (dictSet voice "Language" (Value.str (splitHead s)))
  | Option.some _ => Except.error (PyError.attributeError "split")

/-- The list comprehension of `VoicesManager.create` (lines 83-86):
normalizes the records left to right and aborts at the first exception, in
which case the assignment to `manager.voices` never happens. -/
def normalizeAll : List Dict → Except PyError (List Dict)
  | [] => Except.ok []
  | v :: vs =>
      match normalizeVoice v with
      | Except.error e => Except.error e
      | Except.ok w =>
          match normalizeAll vs with
          | Except.error e => Except.error e
          | Except.ok ws => Except.ok (w :: ws)

/-- Embedding of `VoicesManager.create` (lines 68-88): fetch the records
through `list_voices` unless `custom_voices` is supplied, normalize every
record, and only then set `is_initialized`.  Any exception propagates and
no manager is returned. -/
def create (custom_voices : Option (List Dict)) (t : Transport) :
    Except PyError VoicesManager :=
  match (match custom_voices with
         | Option.none => list_voices t
         | Option.some vs => Except.ok vs) with
  | Except.error e => Except.error e
  | Except.ok voices =>
      match normalizeAll voices with
      | Except.error e => Except.error e
      | Except.ok normalized =>
          Except.ok { voices := normalized, is_initialized := true }

/-- Embedding of `VoicesManager.find` (lines 90-113): raise `RuntimeError`
before initialization, return `self.voices` whole for an empty query, and
otherwise keep, in order, the voices with `voice.get(key) == value` for
every queried pair. -/
def find (m : VoicesManager) (attributes : Dict) : Except PyError (List Dict) :=
  if m.is_initialized = false then
    Except.error (PyError.runtimeError
      "VoicesManager.find() called before VoicesManager.create()")
  else if attributes.isEmpty then
    Except.ok m.voices
  else
    Except.ok (m.voices.filter
      (fun voice => attributes.all (fun kv => dictGet voice kv.1 == kv.2)))

/-- The `find` method seen with its receiver state: the method body reads
`self.is_initialized` and `self.voices` and assigns to neither, so the
post-state of `self` is its pre-state. -/
def findST (m : VoicesManager) (attributes : Dict) :
    Except PyError (List Dict) × VoicesManager :=
  (find m attributes, m)

/-- Modelled from the spec's words for the `find` match condition: every
queried attribute name is present on the record and its value equals the
queried value.  Compared against the source's filter in the refinement
theorem for the query operation. -/
def specMatches (voice : Dict) (attributes : Dict) : Prop :=
  ∀ kv ∈ attributes, dictGet? voice kv.1 = Option.some kv.2

instance (voice attributes : Dict) : Decidable (specMatches voice attributes) :=
  inferInstanceAs (Decidable (∀ kv ∈ attributes, dictGet? voice kv.1 = Option.some kv.2))

/-- First record of the spec's worked example directory. -/
def voiceA : Dict :=
  [("ShortName", Value.str "A"), ("Locale", Value.str "en-US"),
   ("Gender", Value.str "Female")]

/-- Second record of the spec's worked example directory. -/
def voiceB : Dict :=
  [("ShortName", Value.str "B"), ("Locale", Value.str "en-GB"),
   ("Gender", Value.str "Male")]

/-- A transport on which the fetch would succeed with an empty catalog;
used where a concrete transport value is needed but never consulted. -/
def tOk : Transport := Transport.response 200 (Body.jsonList [])

/-- The spec's worked example directory after population: both records
carry the derived `Language` attribute. -/
def mEx : VoicesManager :=
  { voices := [voiceA ++ [("Language", Value.str "en")],
               voiceB ++ [("Language", Value.str "en")]],
    is_initialized := true }

/-! ### Helper lemmas about the dict operations -/

theorem find?_map_replace (d : Dict) (k : String) (v : Value) :
    (d.map (fun p => if p.1 == k then (k, v) else p)).find? (fun p => p.1 == k)
      = if d.any (fun p => p.1 == k) then Option.some (k, v) else Option.none := by
  induction d with
  | nil => rfl
  | cons p d ih =>
    by_cases h : p.1 = k
    · simp [h, List.find?_cons_of_pos]
    · have hb : (p.1 == k) = false := by simp [h]
      simp only [List.map_cons, List.any_cons, hb, Bool.false_or]
      rw [List.find?_cons_of_neg _ (by simp [hb]), ih]

theorem find?_map_replace_ne (d : Dict) (k k' : String) (v : Value) (h : k' ≠ k) :
    (d.map (fun p => if p.1 == k then (k, v) else p)).find? (fun p => p.1 == k')
      = d.find? (fun p => p.1 == k') := by
  induction d with
  | nil => rfl
  | cons p d ih =>
    by_cases hp : p.1 = k
    · have h1 : ((if p.1 == k then (k, v) else p) : String × Value) = (k, v) := by
        simp [hp]
      have h2 : (p.1 == k') = false := by simp [hp, Ne.symm h]
      simp only [List.map_cons, h1]
      rw [List.find?_cons_of_neg _ (by simp [Ne.symm h]),
          List.find?_cons_of_neg _ (by simp [h2]), ih]
    · have h1 : ((if p.1 == k then (k, v) else p) : String × Value) = p := by
        simp [hp]
      simp only [List.map_cons, h1]
      by_cases hq : p.1 = k'
      · rw [List.find?_cons_of_pos _ (by simp [hq]),
            List.find?_cons_of_pos _ (by simp [hq])]
      · rw [List.find?_cons_of_neg _ (by simp [hq]),
            List.find?_cons_of_neg _ (by simp [hq]), ih]

theorem dictGet?_dictSet_self (d : Dict) (k : String) (v : Value) :
    dictGet? (dictSet d k v) k = Option.some v := by
  unfold dictGet? dictSet
  by_cases hany : d.any (fun p => p.1 == k)
  · rw [if_pos hany, find?_map_replace, if_pos hany]
    rfl
  · rw [if_neg hany, List.find?_append]
    have hnone : d.find? (fun p => p.1 == k) = Option.none := by
      rw [List.find?_eq_none]
      intro x hx hpx
      exact hany (List.any_eq_true.mpr ⟨x, hx, hpx⟩)
    simp [hnone]

theorem dictGet?_dictSet_ne (d : Dict) (k k' : String) (v : Value) (h : k' ≠ k) :
    dictGet? (dictSet d k v) k' = dictGet? d k' := by
  unfold dictGet? dictSet
  by_cases hany : d.any (fun p => p.1 == k)
  · rw [if_pos hany, find?_map_replace_ne d k k' v h]
  · rw [if_neg hany, List.find?_append]
    have hlast : List.find? (fun p => p.1 == k') [(k, v)] = Option.none := by
      simp [Ne.symm h]
    rw [hlast]
    cases d.find? (fun p => p.1 == k') <;> rfl

theorem dictGet_eq_iff (voice : Dict) (k : String) (v : Value)
    (hv : v ≠ Value.none) :
    dictGet voice k = v ↔ dictGet? voice k = Option.some v := by
  unfold dictGet
  cases h : dictGet? voice k with
  | none =>
    simp only [Option.getD_none]
    exact ⟨fun hh => absurd hh.symm hv, fun hh => by cases hh⟩
  | some w => simp

/-! ### Helper lemmas about the normalization pass -/

theorem splitDashHead_no_dash (l : List Char) (h : '-' ∉ l) :
    splitDashHead l = l := by
  induction l with
  | nil => rfl
  | cons c cs ih =>
    have hc : c ≠ '-' := fun hh => h (hh ▸ List.mem_cons_self c cs)
    have hcs : '-' ∉ cs := fun hh => h (List.mem_cons_of_mem c hh)
    unfold splitDashHead
    rw [if_neg (fun hh => hc hh), ih hcs]

theorem splitDashHead_append_dash (l₁ l₂ : List Char) (h : '-' ∉ l₁) :
    splitDashHead (l₁ ++ '-' :: l₂) = l₁ := by
  induction l₁ with
  | nil => simp [splitDashHead]
  | cons c cs ih =>
    have hc : c ≠ '-' := fun hh => h (hh ▸ List.mem_cons_self c cs)
    have hcs : '-' ∉ cs := fun hh => h (List.mem_cons_of_mem c hh)
    unfold splitDashHead
    simp only [List.cons_append]
    rw [if_neg (fun hh => hc hh), ih hcs]

theorem normalizeVoice_ok (v w : Dict) (h : normalizeVoice v = Except.ok w) :
    ∃ s, dictGet? v "Locale" = Option.some (Value.str s) ∧
      w = dictSet v "Language" (Value.str (splitHead s)) := by
  unfold normalizeVoice at h
  cases hl : dictGet? v "Locale" with
  | none => rw [hl] at h; cases h
  | some val =>
    cases val with
    | none => rw [hl] at h; cases h
    | str s => rw [hl] at h; cases h; exact ⟨s, rfl, rfl⟩
    | int n => rw [hl] at h; cases h

theorem normalizeAll_ok_forall₂ (vs ws : List Dict)
    (h : normalizeAll vs = Except.ok ws) :
    List.Forall₂ (fun v w => normalizeVoice v = Except.ok w) vs ws := by
  induction vs generalizing ws with
  | nil =>
    unfold normalizeAll at h
    cases h
    exact List.Forall₂.nil
  | cons v vs ih =>
    unfold normalizeAll at h
    cases hv : normalizeVoice v with
    | error e => rw [hv] at h; cases h
    | ok w =>
      rw [hv] at h
      cases hvs : normalizeAll vs with
      | error e => rw [hvs] at h; cases h
      | ok ws' =>
        rw [hvs] at h
        cases h
        exact List.Forall₂.cons hv (ih ws' hvs)

theorem normalizeAll_ok_mem (vs ws : List Dict)
    (h : normalizeAll vs = Except.ok ws) (w : Dict) (hw : w ∈ ws) :
    ∃ v, normalizeVoice v = Except.ok w := by
  have hf := normalizeAll_ok_forall₂ vs ws h
  clear h
  revert hw
  induction hf with
  | nil => intro hw; cases hw
  | cons hvw _ ih =>
    intro hw
    rcases List.mem_cons.mp hw with hh | hh
    · exact ⟨_, hh ▸ hvw⟩
    · exact ih hh

/-! ### Claim theorems -/

/-- Claim C4: on a directory that has been constructed but not populated,
`find` fails with the not-initialized `RuntimeError` for every attribute
mapping, empty or not, and never returns a result. -/
theorem find_before_create_raises (m : VoicesManager) (attributes : Dict)
    (h : m.is_initialized = false) :
    find m attributes = Except.error (PyError.runtimeError
      "VoicesManager.find() called before VoicesManager.create()") := by
  unfold find
  rw [h, if_pos rfl]

/-- Witness for the C4 theorem: an unpopulated directory queried with the
empty mapping. -/
theorem find_before_create_raises_witness :
    find { voices := [voiceA], is_initialized := false } []
      = Except.error (PyError.runtimeError
          "VoicesManager.find() called before VoicesManager.create()") :=
  find_before_create_raises { voices := [voiceA], is_initialized := false } [] rfl

/-- Claim C5: on a populated directory, `find` with the empty attribute
mapping returns the full record sequence, every record in original order. -/
theorem find_empty_query_returns_all (m : VoicesManager)
    (h : m.is_initialized = true) :
    find m [] = Except.ok m.voices := by
  unfold find
  rw [h]
  simp

/-- Witness for the C5 theorem at the spec's worked example directory. -/
theorem find_empty_query_returns_all_witness :
    find mEx [] = Except.ok mEx.voices :=
  find_empty_query_returns_all mEx rfl

/-- Claim C6: `create` with a supplied record sequence never performs the
fetch: its outcome is independent of the transport, in particular it is
the same whether the exchange would fail or succeed, and for the empty
seed as for any other. -/
theorem create_with_seed_skips_fetch (vs : List Dict) (t t' : Transport) :
    create (Option.some vs) t = create (Option.some vs) t' := rfl

/-- Claim C9: `find` is deterministic and leaves the directory unchanged:
the receiver state after a call is the pre-call state, and a second call
with identical arguments on that state returns the same result. -/
theorem find_idempotent (m : VoicesManager) (attributes : Dict) :
    (findST m attributes).2 = m ∧
    (findST ((findST m attributes).2) attributes).1 = (findST m attributes).1 :=
  ⟨rfl, rfl⟩

/-- Claim C7 counterexample: a terminal non-2xx status below 400 (here
`304 Not Modified`) with a non-JSON body raises the `ValueError` decode
error, not the `RuntimeError` fetch error the claim requires for every
non-2xx status (`raise_for_status` only raises from status 400 up). -/
theorem list_voices_304_not_json_decode_error :
    list_voices (Transport.response 304 Body.notJson)
      = Except.error (PyError.valueError
          "Failed to decode the voice list response as JSON.") := rfl

/-- Claim C7 (amended: `FetchError` covers transport failures and HTTP
statuses from 400 up, `DecodeError` covers sub-400 responses whose body is
not valid JSON): the fetch fails with the `RuntimeError` fetch error on
every transport-level failure and every status `>= 400`, fails with the
distinct `ValueError` decode error on a sub-400 response with a non-JSON
body, and returns the decoded record sequence unchanged on success. -/
theorem list_voices_error_taxonomy :
    (∀ cause, list_voices (Transport.clientError cause)
        = Except.error (PyError.runtimeError
            ("Failed to fetch voice list: " ++ cause))) ∧
    (∀ status body, 400 ≤ status →
        list_voices (Transport.response status body)
          = Except.error (PyError.runtimeError
              ("Failed to fetch voice list: " ++ toString status))) ∧
    (∀ status, status < 400 →
        list_voices (Transport.response status Body.notJson)
          = Except.error (PyError.valueError
              "Failed to decode the voice list response as JSON.")) ∧
    (∀ status records, status < 400 →
        list_voices (Transport.response status (Body.jsonList records))
          = Except.ok records) ∧
    (∀ m₁ m₂, PyError.runtimeError m₁ ≠ PyError.valueError m₂) := by
  refine ⟨fun cause => rfl, ?_, ?_, ?_, ?_⟩
  · intro status body h
    simp only [list_voices]
    rw [if_pos h]
  · intro status h
    simp only [list_voices]
    rw [if_neg (Nat.not_le.mpr h)]
  · intro status records h
    simp only [list_voices]
    rw [if_neg (Nat.not_le.mpr h)]
  · intro m₁ m₂ h
    cases h

/-- Witness for the amended C7 theorem: the spec's HTTP 503 example
surfaces the fetch error. -/
theorem list_voices_error_taxonomy_witness :
    list_voices (Transport.response 503 Body.notJson)
      = Except.error (PyError.runtimeError
          ("Failed to fetch voice list: " ++ toString 503)) :=
  list_voices_error_taxonomy.2.1 503 Body.notJson (by decide)

/-- Claim C3 counterexample: population of a record with no `Locale`
attribute raises `KeyError` (from `voice["Locale"]`); it is not the silent
best-effort derivation the claim describes. -/
theorem create_keyerror_on_missing_locale :
    create (Option.some [([] : Dict)]) tOk
      = Except.error (PyError.keyError "Locale") := rfl

/-- Claim C3 (amended: when `Locale` is absent, population raises
`KeyError` rather than silently omitting `Language`): when `Locale` holds
a string, normalization attaches `Language` bound to the part of `Locale`
before the first `'-'` — the whole value when there is no `'-'` — and when
`Locale` is absent the record's normalization fails with `KeyError`. -/
theorem language_derivation (voice : Dict) :
    (∀ s, dictGet? voice "Locale" = Option.some (Value.str s) →
      normalizeVoice voice
        = Except.ok (dictSet voice "Language" (Value.str (splitHead s))) ∧
      dictGet? (dictSet voice "Language" (Value.str (splitHead s))) "Language"
        = Option.some (Value.str (splitHead s))) ∧
    (dictGet? voice "Locale" = Option.none →
      normalizeVoice voice = Except.error (PyError.keyError "Locale")) ∧
    (∀ l₁ l₂ : List Char, '-' ∉ l₁ →
      splitHead (String.mk (l₁ ++ '-' :: l₂)) = String.mk l₁) ∧
    (∀ s : String, '-' ∉ s.data → splitHead s = s) := by
  refine ⟨?_, ?_, ?_, ?_⟩
  · intro s h
    unfold normalizeVoice
    rw [h]
    exact ⟨rfl, dictGet?_dictSet_self voice "Language" (Value.str (splitHead s))⟩
  · intro h
    unfold normalizeVoice
    rw [h]
  · intro l₁ l₂ h
    unfold splitHead
    exact congrArg String.mk (splitDashHead_append_dash l₁ l₂ h)
  · intro s h
    unfold splitHead
    rw [splitDashHead_no_dash s.data h]

/-- Witness for the amended C3 theorem at the spec's `en-US` example. -/
theorem language_derivation_witness :
    normalizeVoice [("Locale", Value.str "en-US")]
      = Except.ok (dictSet [("Locale", Value.str "en-US")] "Language"
          (Value.str (splitHead "en-US"))) ∧
    dictGet? (dictSet [("Locale", Value.str "en-US")] "Language"
          (Value.str (splitHead "en-US"))) "Language"
      = Option.some (Value.str (splitHead "en-US")) :=
  (language_derivation [("Locale", Value.str "en-US")]).1 "en-US" rfl

/-- Claim C1 counterexample: querying with the absent-equivalent value
`None` for an attribute the record lacks returns the record, although the
queried attribute name is not present on it — `voice.get(key)` yields
`None` and `None == None` holds. -/
theorem find_none_query_violates_presence :
    dictGet? [("Locale", Value.str "fr"), ("Language", Value.str "fr")] "Gender"
      = Option.none ∧
    find { voices := [[("Locale", Value.str "fr"), ("Language", Value.str "fr")]],
           is_initialized := true }
        [("Gender", Value.none)]
      = Except.ok [[("Locale", Value.str "fr"), ("Language", Value.str "fr")]] :=
  ⟨rfl, rfl⟩

/-- Claim C1 (amended: provided no queried value is the absent-equivalent
`None`): on a populated directory, a non-empty query returns, in original
catalog order, exactly the records on which every queried attribute name
is present with a value equal — exactly, case-sensitively, without
coercion — to the queried one, all pairs conjoined: the result is the
catalog filtered by the spec-side match predicate. -/
theorem find_filters_by_exact_match (m : VoicesManager) (attributes : Dict)
    (hinit : m.is_initialized = true) (hne : attributes ≠ [])
    (hnonone : ∀ kv ∈ attributes, kv.2 ≠ Value.none) :
    find m attributes
      = Except.ok (m.voices.filter
          (fun voice => decide (specMatches voice attributes))) := by
  unfold find
  rw [hinit]
  rw [if_neg (by simp), if_neg (by simp [hne])]
  congr 1
  apply List.filter_congr
  intro voice hvoice
  have hpt : ∀ kv ∈ attributes,
      ((dictGet voice kv.1 == kv.2) = true
        ↔ dictGet? voice kv.1 = Option.some kv.2) := by
    intro kv hkv
    rw [beq_iff_eq]
    exact dictGet_eq_iff voice kv.1 kv.2 (hnonone kv hkv)
  apply Bool.eq_iff_iff.mpr
  rw [List.all_eq_true, decide_eq_true_eq]
  unfold specMatches
  constructor
  · intro hall kv hkv
    exact (hpt kv hkv).mp (hall kv hkv)
  · intro hall kv hkv
    exact (hpt kv hkv).mpr (hall kv hkv)

/-- Witness for the amended C1 theorem: the spec's worked example query
`find(Gender="Female")` returns exactly the first record. -/
theorem find_filters_by_exact_match_witness :
    find mEx [("Gender", Value.str "Female")]
      = Except.ok [voiceA ++ [("Language", Value.str "en")]] :=
  (find_filters_by_exact_match mEx [("Gender", Value.str "Female")] rfl
      (by decide) (by decide)).trans (by rfl)

/-- Claim C2 counterexample: a record lacking the queried key `"Gender"`
is included — not excluded — when the queried value is the
absent-equivalent `None`. -/
theorem find_none_query_includes_missing_attribute :
    dictGet? [("Locale", Value.str "en"), ("Language", Value.str "en")] "Gender"
      = Option.none ∧
    find { voices := [[("Locale", Value.str "en"), ("Language", Value.str "en")]],
           is_initialized := true }
        [("Gender", Value.none)]
      = Except.ok [[("Locale", Value.str "en"), ("Language", Value.str "en")]] :=
  ⟨rfl, rfl⟩

/-- Claim C2 (amended: restricted to queried values other than the
absent-equivalent `None`, which the code treats as matching an absent
key): a record lacking a queried attribute key whose queried value is not
`None` is never in the result of `find`. -/
theorem find_excludes_missing_attribute (m : VoicesManager) (attributes : Dict)
    (voice : Dict) (r : List Dict) (k : String) (v : Value)
    (hkv : (k, v) ∈ attributes) (hv : v ≠ Value.none)
    (hmiss : dictGet? voice k = Option.none)
    (hfind : find m attributes = Except.ok r) :
    voice ∉ r := by
  intro hvr
  unfold find at hfind
  by_cases hinit : m.is_initialized = false
  · rw [if_pos hinit] at hfind
    cases hfind
  · rw [if_neg hinit] at hfind
    by_cases hempty : attributes.isEmpty = true
    · rw [List.isEmpty_iff] at hempty
      subst hempty
      cases hkv
    · rw [if_neg hempty] at hfind
      cases hfind
      have hall := (List.mem_filter.mp hvr).2
      rw [List.all_eq_true] at hall
      have hkv' := hall (k, v) hkv
      rw [beq_iff_eq] at hkv'
      unfold dictGet at hkv'
      rw [hmiss] at hkv'
      exact hv hkv'.symm

/-- Witness for the amended C2 theorem: a record lacking `"Gender"` is not
in the result of `find(Gender="Male")`. -/
theorem find_excludes_missing_attribute_witness :
    [("Locale", Value.str "fr"), ("Language", Value.str "fr")]
      ∉ ([] : List Dict) :=
  find_excludes_missing_attribute
    { voices := [[("Locale", Value.str "fr"), ("Language", Value.str "fr")]],
      is_initialized := true }
    [("Gender", Value.str "Male")]
    [("Locale", Value.str "fr"), ("Language", Value.str "fr")]
    [] "Gender" (Value.str "Male") (by decide) (by decide) rfl rfl

/-- Claim C8: population is all-or-nothing — a failed fetch propagates its
error unchanged out of `create` and no directory value is produced, while
a returned directory always has its flag set with every record carrying
the `Language` attribute derived from its `Locale`. -/
theorem create_all_or_nothing :
    (∀ (t : Transport) (e : PyError), list_voices t = Except.error e →
      create Option.none t = Except.error e) ∧
    (∀ (custom_voices : Option (List Dict)) (t : Transport) (m : VoicesManager),
      create custom_voices t = Except.ok m →
      m.is_initialized = true ∧
      ∀ voice ∈ m.voices, ∃ s,
        dictGet? voice "Locale" = Option.some (Value.str s) ∧
        dictGet? voice "Language" = Option.some (Value.str (splitHead s))) := by
  constructor
  · intro t e h
    unfold create
    rw [h]
  · intro cv t m h
    unfold create at h
    cases hfetch : (match cv with
        | Option.none => list_voices t
        | Option.some vs => Except.ok vs) with
    | error e => rw [hfetch] at h; cases h
    | ok voices =>
      rw [hfetch] at h
      dsimp only at h
      cases hn : normalizeAll voices with
      | error e => rw [hn] at h; cases h
      | ok ws =>
        rw [hn] at h
        cases h
        refine ⟨rfl, ?_⟩
        intro voice hvoice
        obtain ⟨v, hv⟩ := normalizeAll_ok_mem voices ws hn voice hvoice
        obtain ⟨s, hl, hw⟩ := normalizeVoice_ok v voice hv
        refine ⟨s, ?_, ?_⟩
        · rw [hw, dictGet?_dictSet_ne _ _ _ _ (by decide)]
          exact hl
        · rw [hw]
          exact dictGet?_dictSet_self _ _ _

/-- Witness for the C8 theorem: a refused connection surfaces the fetch
error unchanged from `create`. -/
theorem create_all_or_nothing_witness :
    create Option.none (Transport.clientError "connection refused")
      = Except.error (PyError.runtimeError
          "Failed to fetch voice list: connection refused") :=
  create_all_or_nothing.1 (Transport.clientError "connection refused")
    (PyError.runtimeError "Failed to fetch voice list: connection refused") rfl

/-- Claim C10: population preserves the record sequence's length and
order, and on every record it preserves every attribute other than
`Language` — same presence, same value — while binding `Language` to the
value derived from `Locale`, overwriting any seeded `Language`. -/
theorem create_preserves_nonlanguage_attributes (vs : List Dict)
    (t : Transport) (m : VoicesManager)
    (h : create (Option.some vs) t = Except.ok m) :
    m.voices.length = vs.length ∧
    List.Forall₂ (fun v w =>
      (∀ k, k ≠ "Language" → dictGet? w k = dictGet? v k) ∧
      ∃ s, dictGet? v "Locale" = Option.some (Value.str s) ∧
        dictGet? w "Language" = Option.some (Value.str (splitHead s))) vs
      m.voices := by
  unfold create at h
  dsimp only at h
  cases hn : normalizeAll vs with
  | error e => rw [hn] at h; cases h
  | ok ws =>
    rw [hn] at h
    cases h
    have hf := normalizeAll_ok_forall₂ vs ws hn
    refine ⟨hf.length_eq.symm, ?_⟩
    refine List.Forall₂.imp ?_ hf
    intro v w hvw
    obtain ⟨s, hl, hw⟩ := normalizeVoice_ok v w hvw
    refine ⟨?_, s, hl, ?_⟩
    · intro k hk
      rw [hw, dictGet?_dictSet_ne _ _ _ _ hk]
    · rw [hw]
      exact dictGet?_dictSet_self _ _ _

/-- Witness for the C10 theorem: a seeded record with a stale `Language`
value gets it overwritten in place and keeps its `Locale`. -/
theorem create_preserves_nonlanguage_attributes_witness :
    (VoicesManager.mk
        [[("Locale", Value.str "en-US"), ("Language", Value.str "en")]]
        true).voices.length
      = [[("Locale", Value.str "en-US"), ("Language", Value.str "zz")]].length ∧
    List.Forall₂ (fun v w =>
      (∀ k, k ≠ "Language" → dictGet? w k = dictGet? v k) ∧
      ∃ s, dictGet? v "Locale" = Option.some (Value.str s) ∧
        dictGet? w "Language" = Option.some (Value.str (splitHead s)))
      [[("Locale", Value.str "en-US"), ("Language", Value.str "zz")]]
      (VoicesManager.mk
        [[("Locale", Value.str "en-US"), ("Language", Value.str "en")]]
        true).voices :=
  create_preserves_nonlanguage_attributes
    [[("Locale", Value.str "en-US"), ("Language", Value.str "zz")]] tOk
    (VoicesManager.mk
      [[("Locale", Value.str "en-US"), ("Language", Value.str "en")]] true)
    rfl

end EdgeTTS
